import Mathlib

/-!
# Verification of the permit-tracking API handlers

A shallow embedding, in Lean 4, of the request-handler logic of the
permit-tracking web application (document/company registries, source-file
reference reconciliation, extraction-field normalization, file relay and
authentication gating), together with theorems settling the specification
claims about that logic.

JavaScript runtime values appearing in JSON payloads are modelled by
`JsVal`; JavaScript numbers by `JsNumber` (finite values as rationals,
plus NaN and the infinities).  String primitives used by the handlers
(`trim`, `toUpperCase`, `startsWith`, `parseInt`, the regex replacement
`/[\s-]+/g -> "_"`) are modelled by executable list-based functions.
External collaborators (the identity provider, the database, object
storage, `new Date(...)` parsing) are modelled as explicit parameters of
the embedded handlers.
-/

/-- A JavaScript/JSON number as seen by the handlers: a finite value
(modelled as a rational), `NaN`, or an infinity. -/
inductive JsNumber where
  | nan : JsNumber
  | posInf : JsNumber
  | negInf : JsNumber
  | fin : ℚ → JsNumber
deriving DecidableEq

/-- `Number.isFinite` on the modelled numbers. -/
def JsNumber.isFinite : JsNumber → Bool
  | .fin _ => true
  | _ => false

/-- The JavaScript comparison `n < 0` (false on `NaN`). -/
def JsNumber.ltZero : JsNumber → Bool
  | .fin q => q < 0
  | .negInf => true
  | _ => false

/-- The finite value carried by a `JsNumber`, when there is one. -/
def JsNumber.finValue? : JsNumber → Option ℚ
  | .fin q => some q
  | _ => none

/-- A JavaScript value occurring in a parsed JSON payload field:
`undefined` (absent key), `null`, a string, a number, a boolean, or some
other structured value (object/array), whose contents the handlers never
inspect. -/
inductive JsVal where
  | undef : JsVal
  | nullv : JsVal
  | str : String → JsVal
  | num : JsNumber → JsVal
  | boolv : Bool → JsVal
  | objv : JsVal
deriving DecidableEq

/-- Whitespace as recognised by the JavaScript string primitives used in
the handlers (the ECMAScript WhiteSpace and LineTerminator code points:
space, tab, LF, VT, FF, CR, NBSP, ZWNBSP, LS, PS). -/
def isJsSpace (c : Char) : Bool :=
  c.toNat = 32 || c.toNat = 9 || c.toNat = 10 || c.toNat = 11 || c.toNat = 12 ||
  c.toNat = 13 || c.toNat = 160 || c.toNat = 65279 || c.toNat = 8232 || c.toNat = 8233

/-- Drop whitespace from both ends of a character list. -/
def trimList (l : List Char) : List Char :=
  ((l.dropWhile isJsSpace).reverse.dropWhile isJsSpace).reverse

/-- JavaScript `String.prototype.trim`. -/
def jsTrim (s : String) : String := String.mk (trimList s.toList)

/-- ASCII upper-casing of one character (the fragment of JavaScript
`toUpperCase` relevant to the enum codes handled here). -/
def asciiUpper (c : Char) : Char :=
  if 97 ≤ c.toNat ∧ c.toNat ≤ 122 then Char.ofNat (c.toNat - 32) else c

/-- JavaScript `String.prototype.toUpperCase` (ASCII fragment). -/
def jsToUpper (s : String) : String := String.mk (s.toList.map asciiUpper)

/-- JavaScript `a.startsWith(b)`. -/
def jsStartsWith (s pre : String) : Bool :=
  pre.toList.isPrefixOf s.toList

/-- Value of a leading run of decimal digits, `none` when there is none. -/
def digitsVal (cs : List Char) : Option Nat :=
  let ds := cs.takeWhile Char.isDigit
  if ds.isEmpty then none
  else some (ds.foldl (fun n c => n * 10 + (c.toNat - 48)) 0)

/-- JavaScript `Number.parseInt(s, 10)`: skip leading whitespace, read an
optional sign and then a maximal run of decimal digits; `none` models the
`NaN` result produced when no digit is found. -/
def jsParseInt (s : String) : Option Int :=
  match s.toList.dropWhile isJsSpace with
  | '-' :: rest => (digitsVal rest).map (fun n => -(n : Int))
  | '+' :: rest => (digitsVal rest).map (fun n => (n : Int))
  | rest => (digitsVal rest).map (fun n => (n : Int))

/-- A character matched by the regex class `[\s-]` (whitespace or the
hyphen, code point 45). -/
def isSepChar (c : Char) : Bool := isJsSpace c || c.toNat = 45

/-- One step of the global regex replacement `/[\s-]+/g -> "_"`:
the boolean records whether the previous character was part of a
separator run (in which case further separator characters are absorbed
into the already-emitted underscore). -/
def collapseStep (acc : List Char × Bool) (c : Char) : List Char × Bool :=
  if isSepChar c then
    if acc.2 then acc else (acc.1 ++ ['_'], true)
  else
    (acc.1 ++ [c], false)

/-- JavaScript `s.replace(/[\s-]+/g, "_")`: every maximal run of
whitespace/hyphen characters becomes a single underscore. -/
def collapseSeps (s : String) : String :=
  String.mk ((s.toList.foldl collapseStep ([], false)).1)

/-- `DocumentCategory` of the Prisma client.  Modelled from the spec: the
Prisma schema is not part of the sources at hand; the spec's data model
(§3) and the extraction prompt in the upload handler both enumerate these
eight category values. -/
inductive DocumentCategory where
  | PERMIT | LICENSE | INSPECTION | INSURANCE
  | REGISTRATION | CERTIFICATION | AGREEMENT | OTHER
deriving DecidableEq

/-- The string code of a category, as in `Object.values(DocumentCategory)`. -/
def DocumentCategory.code : DocumentCategory → String
  | .PERMIT => "PERMIT"
  | .LICENSE => "LICENSE"
  | .INSPECTION => "INSPECTION"
  | .INSURANCE => "INSURANCE"
  | .REGISTRATION => "REGISTRATION"
  | .CERTIFICATION => "CERTIFICATION"
  | .AGREEMENT => "AGREEMENT"
  | .OTHER => "OTHER"

/-- Membership test `Object.values(DocumentCategory).includes(s)` followed
by the cast, as one lookup. -/
def DocumentCategory.ofCode? (s : String) : Option DocumentCategory :=
  match s with
  | "PERMIT" => some .PERMIT
  | "LICENSE" => some .LICENSE
  | "INSPECTION" => some .INSPECTION
  | "INSURANCE" => some .INSURANCE
  | "REGISTRATION" => some .REGISTRATION
  | "CERTIFICATION" => some .CERTIFICATION
  | "AGREEMENT" => some .AGREEMENT
  | "OTHER" => some .OTHER
  | _ => none

/-- `DocumentStatus` of the Prisma client.  Modelled from the spec: the
schema is not among the sources; the spec (§3, §9) fixes the five-value
set used by all the handlers. -/
inductive DocumentStatus where
  | PENDING_ACTIVATION | ACTIVE | EXPIRED | PENDING_RENEWAL | INACTIVE
deriving DecidableEq

/-- The string code of a status, as in `Object.values(DocumentStatus)`. -/
def DocumentStatus.code : DocumentStatus → String
  | .PENDING_ACTIVATION => "PENDING_ACTIVATION"
  | .ACTIVE => "ACTIVE"
  | .EXPIRED => "EXPIRED"
  | .PENDING_RENEWAL => "PENDING_RENEWAL"
  | .INACTIVE => "INACTIVE"

/-- Membership test `Object.values(DocumentStatus).includes(s)` followed
by the cast, as one lookup. -/
def DocumentStatus.ofCode? (s : String) : Option DocumentStatus :=
  match s with
  | "PENDING_ACTIVATION" => some .PENDING_ACTIVATION
  | "ACTIVE" => some .ACTIVE
  | "EXPIRED" => some .EXPIRED
  | "PENDING_RENEWAL" => some .PENDING_RENEWAL
  | "INACTIVE" => some .INACTIVE
  | _ => none

/-- The string actually looked up by `normalizeCategory`:
`value.trim().toUpperCase()`. -/
def canonCat (s : String) : String := jsToUpper (jsTrim s)

/-- The string actually looked up by `normalizeStatus`:
`value.trim().toUpperCase().replace(/[\s-]+/g, "_")`. -/
def canonStat (s : String) : String := collapseSeps (jsToUpper (jsTrim s))

/-- `normalizeCategory` of the document routes: a string is trimmed and
upper-cased, looked up among the category codes, and anything
unrecognized (or any non-string) falls back to `PERMIT`. -/
def normalizeCategory (v : JsVal) : DocumentCategory :=
  match v with
  | .str s => (DocumentCategory.ofCode? (canonCat s)).getD .PERMIT
  | _ => .PERMIT

/-- `normalizeStatus` of the document routes: a string is trimmed,
upper-cased and has separator runs replaced by underscores, is looked up
among the status codes, and anything unrecognized (or any non-string)
falls back to `ACTIVE`. -/
def normalizeStatus (v : JsVal) : DocumentStatus :=
  match v with
  | .str s => (DocumentStatus.ofCode? (canonStat s)).getD .ACTIVE
  | _ => .ACTIVE

/-- `parseDate` of the document routes.  `new Date(...)` parsing is an
external collaborator, modelled by the parameter `dp` returning the epoch
timestamp, `none` standing for an invalid date (`NaN` time value).
Non-strings and blank strings yield `null` without consulting `dp`. -/
def parseDate (dp : String → Option Int) (v : JsVal) : Option Int :=
  match v with
  | .str s =>
    let trimmed := jsTrim s
    if trimmed = "" then none
    else
      match dp trimmed with
      | none => none
      | some t => some t
  | _ => none

/-- `normalizeDate` of the extraction (upload) handler: same parsing,
but rendering the result as `parsed.toISOString().slice(0, 10)` and using
the empty string as the failure marker.  The `toISOString` rendering of a
timestamp is modelled by the parameter `iso`. -/
def normalizeDate (dp : String → Option Int) (iso : Int → String) (v : JsVal) : String :=
  match v with
  | .str s =>
    let trimmed := jsTrim s
    if trimmed = "" then ""
    else
      match dp trimmed with
      | none => ""
      | some t => String.mk ((iso t).toList.take 10)
  | _ => ""

/-- `PERMIT_FILES_BUCKET` of `lib/storage.ts`. -/
def PERMIT_FILES_BUCKET : String := "permit-files"

/-- `PermitSourceFileMeta` of `lib/storage.ts`. -/
structure PermitSourceFileMeta where
  bucket : String
  path : String
  contentType : String
  name : String
  size : ℚ
deriving DecidableEq

/-- The five optional source-file fields of a document payload, as read
by `resolveSourceFileDecision` / `resolveSourceFileMetadata`. -/
structure SourceFilePayload where
  sourceFileBucket : JsVal
  sourceFilePath : JsVal
  sourceFileContentType : JsVal
  sourceFileName : JsVal
  sourceFileSize : JsVal
deriving DecidableEq

/-- `SourceFileDecision` of the document routes. -/
inductive SourceFileDecision where
  | ignore : SourceFileDecision
  | clear : SourceFileDecision
  | set : PermitSourceFileMeta → SourceFileDecision
deriving DecidableEq

/-- The 400-status payload errors thrown while reconciling a
source-file reference (`SourceFilePayloadError` / `SourceFileError`). -/
inductive SFError where
  | metadata : SFError
  | reference : SFError
  | size : SFError
deriving DecidableEq

/-- The message carried by each source-file payload error. -/
def SFError.message : SFError → String
  | .metadata => "Invalid source file metadata"
  | .reference => "Invalid source file reference"
  | .size => "Invalid source file size"

/-- The HTTP status carried by each source-file payload error (the
constructor default `400`). -/
def SFError.statusCode : SFError → Nat
  | _ => 400

/-- The check `bucket === null || bucket === ""` (and likewise for the
path) guarding the `clear` decision. -/
def isNullOrEmptyStr (v : JsVal) : Bool :=
  v = JsVal.nullv || v = JsVal.str ""

/-- The coercion applied to `payload.sourceFileSize` in
`resolveSourceFileDecision`: a number passes through, a string with
nonblank trim goes through `Number.parseInt(-, 10)`, everything else is
`NaN`. -/
def jsSizeNum (v : JsVal) : JsNumber :=
  match v with
  | .num n => n
  | .str s =>
    if jsTrim s ≠ "" then
      match jsParseInt s with
      | some i => .fin (i : ℚ)
      | none => .nan
    else .nan
  | _ => .nan

/-- The content-type resolution of `resolveSourceFileDecision`:
a string with nonblank trim is trimmed, anything else defaults. -/
def resolveContentType (v : JsVal) : String :=
  match v with
  | .str s => if jsTrim s ≠ "" then jsTrim s else "application/octet-stream"
  | _ => "application/octet-stream"

/-- The file-name resolution of `resolveSourceFileDecision`. -/
def resolveFileName (v : JsVal) : String :=
  match v with
  | .str s => if jsTrim s ≠ "" then jsTrim s else "permit-file"
  | _ => "permit-file"

/-- `resolveSourceFileDecision` of the document create/update routes:
no field supplied → `ignore`; bucket or path explicitly `null`/`""` →
`clear`; non-string bucket/path → the metadata error; wrong bucket or a
path not under `"<userId>/"` → the reference error; a size that does not
coerce to a finite number → the size error; otherwise `set` with the
reconciled metadata. -/
def resolveSourceFileDecision (p : SourceFilePayload) (userId : String) :
    Except SFError SourceFileDecision :=
  if p.sourceFileBucket = JsVal.undef ∧ p.sourceFilePath = JsVal.undef ∧
      p.sourceFileContentType = JsVal.undef ∧ p.sourceFileName = JsVal.undef ∧
      p.sourceFileSize = JsVal.undef then
    .ok .ignore
  else if isNullOrEmptyStr p.sourceFileBucket || isNullOrEmptyStr p.sourceFilePath then
    .ok .clear
  else
    match p.sourceFileBucket, p.sourceFilePath with
    | .str bucket, .str path =>
      if bucket ≠ PERMIT_FILES_BUCKET ∨ ¬ jsStartsWith path (userId ++ "/") then
        .error .reference
      else
        match jsSizeNum p.sourceFileSize with
        | .fin q =>
          .ok (.set
            { bucket := bucket
              path := path
              contentType := resolveContentType p.sourceFileContentType
              name := resolveFileName p.sourceFileName
              size := q })
        | _ => .error .size
    | _, _ => .error .metadata

/-- JavaScript falsity of an optional string (`undefined` or `""`),
as in `!bucket || !path`. -/
def jsFalsyOptStr : Option String → Bool
  | none => true
  | some s => s = ""

/-- The optional-chaining trim `payload.field?.trim()` on a field whose
declared type is `string | null | undefined`. -/
def jsOptTrim (v : JsVal) : Option String :=
  match v with
  | .str s => some (jsTrim s)
  | _ => none

/-- The content-type/name resolution of `resolveSourceFileMetadata`
(truthiness of the raw field, then nonblank trim, trimmed value). -/
def submitMetaField (v : JsVal) (dflt : String) : String :=
  match v with
  | .str s => if s ≠ "" ∧ jsTrim s ≠ "" then jsTrim s else dflt
  | _ => dflt

/-- The size coercion of `resolveSourceFileMetadata`: numbers pass
through, strings with nonblank trim go through `parseInt`, and anything
else (absent or `null`) defaults to `0`. -/
def submitSizeNum (v : JsVal) : JsNumber :=
  match v with
  | .num n => n
  | .str s =>
    if jsTrim s ≠ "" then
      match jsParseInt s with
      | some i => .fin (i : ℚ)
      | none => .nan
    else .fin 0
  | _ => .fin 0

/-- `resolveSourceFileMetadata` of the extraction-save (submit) handler:
trimmed-blank or absent bucket/path → no reference (`none`); wrong bucket
or a path not under `"<userId>/"` → the reference error; a size that is
not a finite non-negative number → the size error; otherwise the
reconciled metadata. -/
def resolveSourceFileMetadata (p : SourceFilePayload) (userId : String) :
    Except SFError (Option PermitSourceFileMeta) :=
  let bucketOpt := jsOptTrim p.sourceFileBucket
  let pathOpt := jsOptTrim p.sourceFilePath
  if jsFalsyOptStr bucketOpt || jsFalsyOptStr pathOpt then
    .ok none
  else
    let bucket := bucketOpt.getD ""
    let path := pathOpt.getD ""
    if bucket ≠ PERMIT_FILES_BUCKET ∨ ¬ jsStartsWith path (userId ++ "/") then
      .error .reference
    else
      match submitSizeNum p.sourceFileSize with
      | .fin q =>
        if q < 0 then .error .size
        else
          .ok (some
            { bucket := bucket
              path := path
              contentType := submitMetaField p.sourceFileContentType "application/octet-stream"
              name := submitMetaField p.sourceFileName "Permit file"
              size := q })
      | _ => .error .size

/-- The `typeof x === "string" ? x.trim() : ""` idiom used for `title`,
`jurisdictionName`, `issuingAuthorityName`, `name`, `phone`, `notes`. -/
def jsStrTrimOr (v : JsVal) : String :=
  match v with
  | .str s => jsTrim s
  | _ => ""

/-- A stored `BusinessDocument` row, restricted to the mutable fields the
document PATCH handler writes (dates as epoch timestamps, the raw
extraction JSON as a `JsVal` with `nullv` standing for JSON null). -/
structure StoredDoc where
  title : String
  permitNumber : Option String
  documentCategory : DocumentCategory
  status : DocumentStatus
  startDate : Option Int
  endDate : Option Int
  autoRenew : Bool
  rawExtractionJson : JsVal
  jurisdictionId : Option Nat
  issuingAuthorityId : Option Nat
  sourceFileBucket : Option String
  sourceFilePath : Option String
  sourceFileContentType : Option String
  sourceFileName : Option String
  sourceFileSize : Option ℚ
deriving DecidableEq

/-- The JSON payload of a document create/update request, field by field. -/
structure DocPayload where
  title : JsVal
  permitNumber : JsVal
  documentCategory : JsVal
  status : JsVal
  startDate : JsVal
  endDate : JsVal
  autoRenew : JsVal
  rawExtraction : JsVal
  jurisdictionName : JsVal
  issuingAuthorityName : JsVal
  sourceFileBucket : JsVal
  sourceFilePath : JsVal
  sourceFileContentType : JsVal
  sourceFileName : JsVal
  sourceFileSize : JsVal
deriving DecidableEq

/-- The five source-file fields of a document payload, as passed to
`resolveSourceFileDecision`. -/
def DocPayload.sourceFields (p : DocPayload) : SourceFilePayload :=
  { sourceFileBucket := p.sourceFileBucket
    sourceFilePath := p.sourceFilePath
    sourceFileContentType := p.sourceFileContentType
    sourceFileName := p.sourceFileName
    sourceFileSize := p.sourceFileSize }

/-- Errors of the document PATCH body after authentication/ownership:
a blank title (400 "Permit title is required") or a source-file payload
error (status 400, message per `SFError.message`). -/
inductive PatchError where
  | titleRequired : PatchError
  | sourceFile : SFError → PatchError
deriving DecidableEq

/-- The document PATCH handler's `updateData` construction applied to the
existing row.  `dp` models `new Date(...)` parsing; `jr`/`ar` model the
`findOrCreateJurisdiction` / `findOrCreateIssuingAuthority` round trips
(returning the id of the resolved row, `none` when the lookup yields no
row).  Fields never named in `updateData` (`rawExtractionJson` when the
payload omits `rawExtraction`; the link ids when the trimmed label is
nonblank but no row was resolved; the source-file columns under the
`ignore` decision) keep the existing row's values, matching the
persistence layer's update semantics. -/
def patchDocument (dp : String → Option Int) (jr ar : String → Option Nat)
    (p : DocPayload) (userId : String) (old : StoredDoc) :
    Except PatchError StoredDoc :=
  let title := jsStrTrimOr p.title
  if title = "" then .error .titleRequired
  else
    let jurisdictionName := jsStrTrimOr p.jurisdictionName
    let issuingAuthorityName := jsStrTrimOr p.issuingAuthorityName
    match resolveSourceFileDecision p.sourceFields userId with
    | .error e => .error (.sourceFile e)
    | .ok decision =>
      .ok
        { title := title
          permitNumber :=
            match p.permitNumber with
            | .str s => if jsTrim s ≠ "" then some (jsTrim s) else none
            | _ => none
          documentCategory := normalizeCategory p.documentCategory
          status := normalizeStatus p.status
          startDate := parseDate dp p.startDate
          endDate := parseDate dp p.endDate
          autoRenew := p.autoRenew = JsVal.boolv true
          rawExtractionJson :=
            if p.rawExtraction = JsVal.undef then old.rawExtractionJson
            else p.rawExtraction
          jurisdictionId :=
            if jurisdictionName = "" then none
            else
              match jr jurisdictionName with
              | some i => some i
              | none => old.jurisdictionId
          issuingAuthorityId :=
            if issuingAuthorityName = "" then none
            else
              match ar issuingAuthorityName with
              | some i => some i
              | none => old.issuingAuthorityId
          sourceFileBucket :=
            match decision with
            | .ignore => old.sourceFileBucket
            | .clear => none
            | .set m => some m.bucket
          sourceFilePath :=
            match decision with
            | .ignore => old.sourceFilePath
            | .clear => none
            | .set m => some m.path
          sourceFileContentType :=
            match decision with
            | .ignore => old.sourceFileContentType
            | .clear => none
            | .set m => some m.contentType
          sourceFileName :=
            match decision with
            | .ignore => old.sourceFileName
            | .clear => none
            | .set m => some m.name
          sourceFileSize :=
            match decision with
            | .ignore => old.sourceFileSize
            | .clear => none
            | .set m => some m.size }

/-- A stored `Business` row, restricted to the fields the company PATCH
handler writes. -/
structure BusinessRow where
  name : String
  phone : Option String
  notes : Option String
  businessTypeId : Option Nat
  jurisdictionId : Option Nat
deriving DecidableEq

/-- The JSON payload of a company update request. -/
structure CompanyPayload where
  name : JsVal
  phone : JsVal
  notes : JsVal
  businessTypeName : JsVal
  jurisdictionName : JsVal
deriving DecidableEq

/-- The company PATCH validation error: blank name
(400 "Company name is required"). -/
inductive CompanyPatchError where
  | nameRequired : CompanyPatchError
deriving DecidableEq

/-- The company PATCH handler's validation and `updateData` construction
applied to the existing row.  `bt`/`jr` model `findOrCreateBusinessType` /
`findOrCreateJurisdiction` (id of the resolved row); when a nonblank
label resolves to no row, the code falls back to the existing link
(`businessType?.id ?? existing.businessTypeId`). -/
def patchBusiness (bt jr : String → Option Nat)
    (p : CompanyPayload) (existing : BusinessRow) :
    Except CompanyPatchError BusinessRow :=
  let name := jsStrTrimOr p.name
  let phone := jsStrTrimOr p.phone
  let notes := jsStrTrimOr p.notes
  let businessTypeName := jsStrTrimOr p.businessTypeName
  let jurisdictionName := jsStrTrimOr p.jurisdictionName
  if name = "" then .error .nameRequired
  else
    .ok
      { name := name
        phone := if phone.length > 0 then some phone else none
        notes := if notes.length > 0 then some notes else none
        businessTypeId :=
          if businessTypeName ≠ "" then
            match bt businessTypeName with
            | some i => some i
            | none => existing.businessTypeId
          else none
        jurisdictionId :=
          if jurisdictionName ≠ "" then
            match jr jurisdictionName with
            | some i => some i
            | none => existing.jurisdictionId
          else none }

/-- The outcome of `supabase.auth.getUser()` as the handlers see it: an
authenticated user id, no user, or a provider error. -/
inductive Auth where
  | authed : String → Auth
  | noUser : Auth
  | authError : String → Auth
deriving DecidableEq

/-- `resolveUser` of the document routes: a provider error is thrown
(`Except.error` with its message), otherwise the optional user. -/
def resolveUserOutcome : Auth → Except String (Option String)
  | .authError m => .error m
  | .noUser => .ok none
  | .authed u => .ok (some u)

/-- The early HTTP status produced by the authentication stage of the
document/company routes (`none` means the handler proceeds with a user):
a thrown provider error is caught by the handler's boundary and mapped to
500, an absent user is answered with 401 "Unauthorized". -/
def docRouteAuthStatus (a : Auth) : Option Nat :=
  match resolveUserOutcome a with
  | .error _ => some 500
  | .ok none => some 401
  | .ok (some _) => none

/-- The authentication stage of the file-relay GET: a provider error is
answered inline with 500, an absent user with 401 "Unauthorized". -/
def fileRouteAuthStatus (a : Auth) : Option Nat :=
  match a with
  | .authError _ => some 500
  | .noUser => some 401
  | .authed _ => none

/-- How the extraction-save (submit) POST resolves the acting user. -/
inductive SubmitUserResolution where
  | err : Nat → SubmitUserResolution
  | session : String → SubmitUserResolution
  | emailFallback : String → SubmitUserResolution
deriving DecidableEq

/-- JavaScript `s.toLowerCase()` (ASCII fragment), used on `userEmail`. -/
def asciiLower (c : Char) : Char :=
  if 65 ≤ c.toNat ∧ c.toNat ≤ 90 then Char.ofNat (c.toNat + 32) else c

/-- JavaScript `String.prototype.toLowerCase` (ASCII fragment). -/
def jsToLower (s : String) : String := String.mk (s.toList.map asciiLower)

/-- The user-resolution logic of the extraction-save POST: a provider
error is thrown and caught as 500; a session user acts as themselves; with
no session the handler falls back to `payload.userEmail?.trim()
.toLowerCase()`, answering 401 only when that email is absent or blank,
and otherwise proceeding as the (found-or-created) user of that email. -/
def resolveSubmitUser (a : Auth) (userEmail : JsVal) : SubmitUserResolution :=
  match a with
  | .authError _ => .err 500
  | .authed u => .session u
  | .noUser =>
    match userEmail with
    | .str s =>
      let e := jsToLower (jsTrim s)
      if e = "" then .err 401 else .emailFallback e
    | _ => .err 401

/-- A `BusinessDocument` row as queried by the file-relay GET: its ids,
the owning company's user id, and the stored source-file columns. -/
structure DocFileRow where
  id : Nat
  businessId : Nat
  ownerId : String
  sourceFileBucket : Option String
  sourceFilePath : Option String
  sourceFileContentType : Option String
  sourceFileName : Option String
deriving DecidableEq

/-- The ownership-scoped query of the file-relay GET:
`businessDocument.findFirst` with the document id, the business id and
the owning user's id all required to match. -/
def findDocForUser (db : List DocFileRow) (documentId businessId : Nat)
    (userId : String) : Option DocFileRow :=
  db.find? (fun r =>
    r.id = documentId ∧ r.businessId = businessId ∧ r.ownerId = userId)

/-- The response of the file-relay GET, after authentication. -/
inductive RelayResponse where
  | notFound : String → RelayResponse
  | badRequest : String → RelayResponse
  | badGateway : String → RelayResponse
  | file : String → String → RelayResponse
deriving DecidableEq

/-- The file-relay GET after authentication: 404 when no owned document
matches, 404 when the stored bucket or path is absent/empty, 400 when the
stored bucket is not the designated bucket, 502 when the storage download
(modelled by `dl`, keyed on bucket and path) fails, and otherwise the
file with content type and filename taken from the stored metadata,
defaulting to "application/octet-stream" / "permit-file". -/
def fileRelayGET (db : List DocFileRow) (businessId documentId : Nat)
    (userId : String) (dl : String → String → Except String Unit) :
    RelayResponse :=
  match findDocForUser db documentId businessId userId with
  | none => .notFound "Permit not found"
  | some doc =>
    if jsFalsyOptStr doc.sourceFileBucket || jsFalsyOptStr doc.sourceFilePath then
      .notFound "No stored file for this permit"
    else
      let bucket := doc.sourceFileBucket.getD ""
      let path := doc.sourceFilePath.getD ""
      if bucket ≠ PERMIT_FILES_BUCKET then .badRequest "Invalid file reference"
      else
        match dl bucket path with
        | .error _ => .badGateway "Unable to load file"
        | .ok _ =>
          .file (doc.sourceFileContentType.getD "application/octet-stream")
            (doc.sourceFileName.getD "permit-file")

/-! ## Helper lemmas -/

/-- With nonblank string bucket and path, `resolveSourceFileDecision`
reaches the reference check and then the size check. -/
theorem resolveSourceFileDecision_strCase (p : SourceFilePayload)
    (uid b pa : String)
    (hb : p.sourceFileBucket = JsVal.str b) (hp : p.sourceFilePath = JsVal.str pa)
    (hbne : b ≠ "") (hpne : pa ≠ "") :
    resolveSourceFileDecision p uid =
      if b ≠ PERMIT_FILES_BUCKET ∨ ¬ jsStartsWith pa (uid ++ "/") then
        .error .reference
      else
        match jsSizeNum p.sourceFileSize with
        | .fin q =>
          .ok (.set
            { bucket := b
              path := pa
              contentType := resolveContentType p.sourceFileContentType
              name := resolveFileName p.sourceFileName
              size := q })
        | _ => .error .size := by
  rw [resolveSourceFileDecision]
  rw [if_neg (by simp [hb]), if_neg (by simp [isNullOrEmptyStr, hb, hp, hbne, hpne])]
  rw [hb, hp]

/-! ## C1: source-file reference acceptance -/

/-- C1: for every document create/update payload supplying a nonblank
string bucket and path, the reference check fails (the 400
"Invalid source file reference" error) exactly when the bucket differs
from the designated bucket `"permit-files"` or the path does not start
with `"<requestingUserId>/"`; when both conditions hold (and the size is
finite) the reference is accepted as the `set` decision carrying that
bucket and path. -/
theorem sourceFileReference_accepted_iff (p : SourceFilePayload)
    (uid b pa : String)
    (hb : p.sourceFileBucket = JsVal.str b) (hp : p.sourceFilePath = JsVal.str pa)
    (hbne : b ≠ "") (hpne : pa ≠ "") :
    (resolveSourceFileDecision p uid = Except.error SFError.reference ↔
      ¬ (b = PERMIT_FILES_BUCKET ∧ jsStartsWith pa (uid ++ "/") = true))
    ∧ (b = PERMIT_FILES_BUCKET → jsStartsWith pa (uid ++ "/") = true →
        (jsSizeNum p.sourceFileSize).isFinite = true →
        ∃ m : PermitSourceFileMeta,
          resolveSourceFileDecision p uid = Except.ok (SourceFileDecision.set m) ∧
          m.bucket = b ∧ m.path = pa)
    ∧ SFError.message SFError.reference = "Invalid source file reference"
    ∧ SFError.statusCode SFError.reference = 400 := by
  rw [resolveSourceFileDecision_strCase p uid b pa hb hp hbne hpne]
  refine ⟨?_, ?_, rfl, rfl⟩
  · by_cases hcond : b = PERMIT_FILES_BUCKET ∧ jsStartsWith pa (uid ++ "/") = true
    · rw [if_neg (by simp [hcond.1, hcond.2])]
      simp only [hcond, not_true, iff_false]
      cases hs : jsSizeNum p.sourceFileSize <;> simp
    · rw [if_pos ?h]
      · simp [hcond]
      · rcases not_and_or.mp hcond with h | h
        · exact Or.inl h
        · exact Or.inr (by simpa using h)
  · intro h1 h2 hfin
    rw [if_neg (by simp [h1, h2])]
    cases hs : jsSizeNum p.sourceFileSize with
    | fin q => exact ⟨_, rfl, rfl, rfl⟩
    | nan => simp [JsNumber.isFinite, hs] at hfin
    | posInf => simp [JsNumber.isFinite, hs] at hfin
    | negInf => simp [JsNumber.isFinite, hs] at hfin

/-- Concrete instantiation of `sourceFileReference_accepted_iff`:
bucket `"permit-files"`, path `"u1/a.pdf"`, requesting user `"u1"`,
size 3. -/
def c1Payload : SourceFilePayload :=
  { sourceFileBucket := .str "permit-files"
    sourceFilePath := .str "u1/a.pdf"
    sourceFileContentType := .undef
    sourceFileName := .undef
    sourceFileSize := .num (.fin 3) }

/-- Witness for C1 at a concrete accepted reference. -/
theorem sourceFileReference_accepted_iff_witness :
    (resolveSourceFileDecision c1Payload "u1" = Except.error SFError.reference ↔
      ¬ ("permit-files" = PERMIT_FILES_BUCKET ∧
          jsStartsWith "u1/a.pdf" ("u1" ++ "/") = true))
    ∧ ("permit-files" = PERMIT_FILES_BUCKET →
        jsStartsWith "u1/a.pdf" ("u1" ++ "/") = true →
        (jsSizeNum c1Payload.sourceFileSize).isFinite = true →
        ∃ m : PermitSourceFileMeta,
          resolveSourceFileDecision c1Payload "u1" =
            Except.ok (SourceFileDecision.set m) ∧
          m.bucket = "permit-files" ∧ m.path = "u1/a.pdf")
    ∧ SFError.message SFError.reference = "Invalid source file reference"
    ∧ SFError.statusCode SFError.reference = 400 :=
  sourceFileReference_accepted_iff c1Payload "u1" "permit-files" "u1/a.pdf"
    rfl rfl (by decide) (by decide)

/-! ## C10: partially supplied source-file fields -/

/-- C10: a payload supplying at least one of the five source-file fields
while leaving the bucket or the path `undefined` (with neither bucket nor
path `null`/empty-string, so the clear branch is not taken) is rejected
with the 400 "Invalid source file metadata" error rather than being
treated as ignore or clear. -/
theorem sourceFileDecision_partial_metadata_error (p : SourceFilePayload)
    (uid : String)
    (hprov : ¬ (p.sourceFileBucket = JsVal.undef ∧ p.sourceFilePath = JsVal.undef ∧
        p.sourceFileContentType = JsVal.undef ∧ p.sourceFileName = JsVal.undef ∧
        p.sourceFileSize = JsVal.undef))
    (hbp : p.sourceFileBucket = JsVal.undef ∨ p.sourceFilePath = JsVal.undef)
    (hb1 : p.sourceFileBucket ≠ JsVal.nullv) (hb2 : p.sourceFileBucket ≠ JsVal.str "")
    (hp1 : p.sourceFilePath ≠ JsVal.nullv) (hp2 : p.sourceFilePath ≠ JsVal.str "") :
    resolveSourceFileDecision p uid = Except.error SFError.metadata
    ∧ SFError.message SFError.metadata = "Invalid source file metadata"
    ∧ SFError.statusCode SFError.metadata = 400 := by
  refine ⟨?_, rfl, rfl⟩
  rw [resolveSourceFileDecision]
  rw [if_neg hprov, if_neg (by simp [isNullOrEmptyStr, hb1, hb2, hp1, hp2])]
  rcases hbp with h | h
  · rw [h]
  · rw [h]
    cases p.sourceFileBucket <;> rfl

/-- Concrete payload supplying only `sourceFileName`. -/
def c10Payload : SourceFilePayload :=
  { sourceFileBucket := .undef
    sourceFilePath := .undef
    sourceFileContentType := .undef
    sourceFileName := .str "scan.pdf"
    sourceFileSize := .undef }

/-- Witness for C10: supplying only `sourceFileName` yields the 400
"Invalid source file metadata" error. -/
theorem sourceFileDecision_partial_metadata_error_witness :
    resolveSourceFileDecision c10Payload "u1" = Except.error SFError.metadata
    ∧ SFError.message SFError.metadata = "Invalid source file metadata"
    ∧ SFError.statusCode SFError.metadata = 400 :=
  sourceFileDecision_partial_metadata_error c10Payload "u1"
    (by decide) (by decide) (by decide) (by decide) (by decide) (by decide)

/-! ## C4: source-file size validation -/

/-- A payload with a valid reference and a negative numeric size. -/
def negSizePayload : SourceFilePayload :=
  { sourceFileBucket := .str "permit-files"
    sourceFilePath := .str "u1/scan.pdf"
    sourceFileContentType := .undef
    sourceFileName := .undef
    sourceFileSize := .num (.fin (-5)) }

/-- C4 counterexample: on the document create/update path, a supplied
`sourceFileSize` of `-5` — finite but negative — is accepted (the
decision is `set` with size `-5`), contradicting the claim that a size
failing to parse to a finite NON-NEGATIVE number is rejected with 400. -/
theorem sourceFileSize_negative_accepted :
    resolveSourceFileDecision negSizePayload "u1" =
      Except.ok (SourceFileDecision.set
        { bucket := "permit-files"
          path := "u1/scan.pdf"
          contentType := "application/octet-stream"
          name := "permit-file"
          size := -5 })
    ∧ ((-5 : ℚ) < 0) := by
  constructor
  · rfl
  · norm_num

/-- C4 amended: on the document create/update path
(`resolveSourceFileDecision`) a supplied size is accepted exactly when it
coerces to a finite number — negative finite values included; only the
extraction-save path (`resolveSourceFileMetadata`) additionally rejects
negative sizes, and there an absent or null size defaults to `0`. -/
theorem sourceFileSize_amended :
    (∀ (p : SourceFilePayload) (uid b pa : String),
      p.sourceFileBucket = JsVal.str b → p.sourceFilePath = JsVal.str pa →
      b = PERMIT_FILES_BUCKET → jsStartsWith pa (uid ++ "/") = true → pa ≠ "" →
      ((jsSizeNum p.sourceFileSize).isFinite = false →
          resolveSourceFileDecision p uid = Except.error SFError.size)
      ∧ (∀ q : ℚ, jsSizeNum p.sourceFileSize = JsNumber.fin q →
          ∃ m : PermitSourceFileMeta,
            resolveSourceFileDecision p uid =
              Except.ok (SourceFileDecision.set m) ∧ m.size = q))
    ∧ (∀ (p : SourceFilePayload) (uid b pa : String),
      jsOptTrim p.sourceFileBucket = some b → jsOptTrim p.sourceFilePath = some pa →
      b ≠ "" → pa ≠ "" → b = PERMIT_FILES_BUCKET → jsStartsWith pa (uid ++ "/") = true →
      ((submitSizeNum p.sourceFileSize).isFinite = false →
          resolveSourceFileMetadata p uid = Except.error SFError.size)
      ∧ (∀ q : ℚ, submitSizeNum p.sourceFileSize = JsNumber.fin q → q < 0 →
          resolveSourceFileMetadata p uid = Except.error SFError.size)
      ∧ (∀ q : ℚ, submitSizeNum p.sourceFileSize = JsNumber.fin q → 0 ≤ q →
          ∃ m : PermitSourceFileMeta,
            resolveSourceFileMetadata p uid = Except.ok (some m) ∧ m.size = q))
    ∧ submitSizeNum JsVal.undef = JsNumber.fin 0
    ∧ submitSizeNum JsVal.nullv = JsNumber.fin 0
    ∧ SFError.message SFError.size = "Invalid source file size"
    ∧ SFError.statusCode SFError.size = 400 := by
  refine ⟨?_, ?_, rfl, rfl, rfl, rfl⟩
  · intro p uid b pa hb hp hbucket hstarts hpne
    have hred := resolveSourceFileDecision_strCase p uid b pa hb hp
      (by rw [hbucket]; decide) hpne
    rw [hred, if_neg (by simp [hbucket, hstarts])]
    constructor
    · intro hfin
      cases hs : jsSizeNum p.sourceFileSize with
      | fin q => rw [hs] at hfin; simp [JsNumber.isFinite] at hfin
      | nan => rfl
      | posInf => rfl
      | negInf => rfl
    · intro q hq
      rw [hq]
      exact ⟨_, rfl, rfl⟩
  · intro p uid b pa hb hp hbne hpne hbucket hstarts
    rw [resolveSourceFileMetadata]
    simp only [hb, hp]
    rw [if_neg (by simp [jsFalsyOptStr, hbne, hpne])]
    simp only [Option.getD_some]
    rw [if_neg (by simp [hbucket, hstarts])]
    refine ⟨?_, ?_, ?_⟩
    · intro hfin
      cases hs : submitSizeNum p.sourceFileSize with
      | fin q => rw [hs] at hfin; simp [JsNumber.isFinite] at hfin
      | nan => rfl
      | posInf => rfl
      | negInf => rfl
    · intro q hq hneg
      rw [hq]
      simp [hneg]
    · intro q hq hnonneg
      rw [hq]
      simp [not_lt.mpr hnonneg]

/-- Witness for the amended C4 at concrete inputs: a NaN-coercing string
size is rejected on the decision path, and on the extraction-save path a
negative size is rejected while size `7` is accepted. -/
theorem sourceFileSize_amended_witness :
    (((jsSizeNum (JsVal.str "abc")).isFinite = false →
        resolveSourceFileDecision
          { sourceFileBucket := .str "permit-files"
            sourceFilePath := .str "u1/scan.pdf"
            sourceFileContentType := .undef
            sourceFileName := .undef
            sourceFileSize := .str "abc" } "u1" = Except.error SFError.size)
      ∧ (∀ q : ℚ, jsSizeNum (JsVal.str "abc") = JsNumber.fin q →
          ∃ m : PermitSourceFileMeta,
            resolveSourceFileDecision
              { sourceFileBucket := .str "permit-files"
                sourceFilePath := .str "u1/scan.pdf"
                sourceFileContentType := .undef
                sourceFileName := .undef
                sourceFileSize := .str "abc" } "u1" =
              Except.ok (SourceFileDecision.set m) ∧ m.size = q))
    ∧ (((submitSizeNum (JsVal.num (.fin (-2)))).isFinite = false →
        resolveSourceFileMetadata
          { sourceFileBucket := .str "permit-files"
            sourceFilePath := .str "u1/scan.pdf"
            sourceFileContentType := .undef
            sourceFileName := .undef
            sourceFileSize := .num (.fin (-2)) } "u1" = Except.error SFError.size)
      ∧ (∀ q : ℚ, submitSizeNum (JsVal.num (.fin (-2))) = JsNumber.fin q → q < 0 →
          resolveSourceFileMetadata
            { sourceFileBucket := .str "permit-files"
              sourceFilePath := .str "u1/scan.pdf"
              sourceFileContentType := .undef
              sourceFileName := .undef
              sourceFileSize := .num (.fin (-2)) } "u1" = Except.error SFError.size)
      ∧ (∀ q : ℚ, submitSizeNum (JsVal.num (.fin (-2))) = JsNumber.fin q → 0 ≤ q →
          ∃ m : PermitSourceFileMeta,
            resolveSourceFileMetadata
              { sourceFileBucket := .str "permit-files"
                sourceFilePath := .str "u1/scan.pdf"
                sourceFileContentType := .undef
                sourceFileName := .undef
                sourceFileSize := .num (.fin (-2)) } "u1" =
              Except.ok (some m) ∧ m.size = q)) :=
  ⟨(sourceFileSize_amended.1
      { sourceFileBucket := .str "permit-files"
        sourceFilePath := .str "u1/scan.pdf"
        sourceFileContentType := .undef
        sourceFileName := .undef
        sourceFileSize := .str "abc" } "u1" "permit-files" "u1/scan.pdf"
      rfl rfl rfl (by decide) (by decide)),
   (sourceFileSize_amended.2.1
      { sourceFileBucket := .str "permit-files"
        sourceFilePath := .str "u1/scan.pdf"
        sourceFileContentType := .undef
        sourceFileName := .undef
        sourceFileSize := .num (.fin (-2)) } "u1" "permit-files" "u1/scan.pdf"
      rfl rfl (by decide) (by decide) rfl (by decide))⟩

/-- When no source-file field is supplied, the decision is `ignore`. -/
theorem resolveSourceFileDecision_ignore (p : SourceFilePayload) (uid : String)
    (h1 : p.sourceFileBucket = JsVal.undef) (h2 : p.sourceFilePath = JsVal.undef)
    (h3 : p.sourceFileContentType = JsVal.undef) (h4 : p.sourceFileName = JsVal.undef)
    (h5 : p.sourceFileSize = JsVal.undef) :
    resolveSourceFileDecision p uid = Except.ok SourceFileDecision.ignore := by
  rw [resolveSourceFileDecision, if_pos ⟨h1, h2, h3, h4, h5⟩]

/-- When the bucket or the path is explicitly `null`/empty (and hence
supplied), the decision is `clear`. -/
theorem resolveSourceFileDecision_clear (p : SourceFilePayload) (uid : String)
    (hb : p.sourceFileBucket = JsVal.nullv ∨ p.sourceFileBucket = JsVal.str "" ∨
        p.sourceFilePath = JsVal.nullv ∨ p.sourceFilePath = JsVal.str "")
    (hprov : ¬ (p.sourceFileBucket = JsVal.undef ∧ p.sourceFilePath = JsVal.undef ∧
        p.sourceFileContentType = JsVal.undef ∧ p.sourceFileName = JsVal.undef ∧
        p.sourceFileSize = JsVal.undef)) :
    resolveSourceFileDecision p uid = Except.ok SourceFileDecision.clear := by
  rw [resolveSourceFileDecision, if_neg hprov, if_pos]
  rcases hb with h | h | h | h <;> simp [isNullOrEmptyStr, h]


/-! ## C5: source-file frame of the document update -/

/-- C5: a document PATCH whose payload supplies none of the five
source-file fields succeeds (given a nonblank title) and leaves all five
stored source-file columns unchanged; a PATCH whose payload supplies
empty-string (or null) bucket and path succeeds and sets all five stored
source-file columns to null. -/
theorem patchDocument_sourceFile_frame :
    (∀ (dp : String → Option Int) (jr ar : String → Option Nat)
        (p : DocPayload) (uid : String) (old : StoredDoc),
      p.sourceFileBucket = JsVal.undef → p.sourceFilePath = JsVal.undef →
      p.sourceFileContentType = JsVal.undef → p.sourceFileName = JsVal.undef →
      p.sourceFileSize = JsVal.undef → jsStrTrimOr p.title ≠ "" →
      ∃ d : StoredDoc, patchDocument dp jr ar p uid old = Except.ok d ∧
        d.sourceFileBucket = old.sourceFileBucket ∧
        d.sourceFilePath = old.sourceFilePath ∧
        d.sourceFileContentType = old.sourceFileContentType ∧
        d.sourceFileName = old.sourceFileName ∧
        d.sourceFileSize = old.sourceFileSize)
    ∧ (∀ (dp : String → Option Int) (jr ar : String → Option Nat)
        (p : DocPayload) (uid : String) (old : StoredDoc),
      (p.sourceFileBucket = JsVal.nullv ∨ p.sourceFileBucket = JsVal.str "") →
      (p.sourceFilePath = JsVal.nullv ∨ p.sourceFilePath = JsVal.str "") →
      jsStrTrimOr p.title ≠ "" →
      ∃ d : StoredDoc, patchDocument dp jr ar p uid old = Except.ok d ∧
        d.sourceFileBucket = none ∧
        d.sourceFilePath = none ∧
        d.sourceFileContentType = none ∧
        d.sourceFileName = none ∧
        d.sourceFileSize = none) := by
  constructor
  · intro dp jr ar p uid old h1 h2 h3 h4 h5 htitle
    have hdec : resolveSourceFileDecision p.sourceFields uid =
        Except.ok SourceFileDecision.ignore :=
      resolveSourceFileDecision_ignore _ _ h1 h2 h3 h4 h5
    simp only [patchDocument, if_neg htitle, hdec]
    exact ⟨_, rfl, rfl, rfl, rfl, rfl, rfl⟩
  · intro dp jr ar p uid old hb hp htitle
    have hdec : resolveSourceFileDecision p.sourceFields uid =
        Except.ok SourceFileDecision.clear := by
      refine resolveSourceFileDecision_clear _ _ ?_ ?_
      · rcases hb with h | h
        · exact Or.inl h
        · exact Or.inr (Or.inl h)
      · intro hall
        have hb' : p.sourceFileBucket = JsVal.undef := hall.1
        rcases hb with h | h <;> rw [hb'] at h <;> exact JsVal.noConfusion h
    simp only [patchDocument, if_neg htitle, hdec]
    exact ⟨_, rfl, rfl, rfl, rfl, rfl, rfl⟩

/-- A concrete PATCH payload with no source-file fields. -/
def c5IgnorePayload : DocPayload :=
  { title := .str "Renewed permit"
    permitNumber := .undef
    documentCategory := .undef
    status := .undef
    startDate := .undef
    endDate := .undef
    autoRenew := .undef
    rawExtraction := .undef
    jurisdictionName := .undef
    issuingAuthorityName := .undef
    sourceFileBucket := .undef
    sourceFilePath := .undef
    sourceFileContentType := .undef
    sourceFileName := .undef
    sourceFileSize := .undef }

/-- The same payload with explicitly empty bucket and path. -/
def c5ClearPayload : DocPayload :=
  { c5IgnorePayload with
    sourceFileBucket := .str ""
    sourceFilePath := .str "" }

/-- A concrete stored document row with a source-file reference. -/
def c5OldDoc : StoredDoc :=
  { title := "Old title"
    permitNumber := some "P-1"
    documentCategory := .LICENSE
    status := .EXPIRED
    startDate := some 0
    endDate := some 86400000
    autoRenew := true
    rawExtractionJson := .objv
    jurisdictionId := some 4
    issuingAuthorityId := some 9
    sourceFileBucket := some "permit-files"
    sourceFilePath := some "u1/old.pdf"
    sourceFileContentType := some "application/pdf"
    sourceFileName := some "old.pdf"
    sourceFileSize := some 1024 }

/-- Witness for C5 at concrete inputs. -/
theorem patchDocument_sourceFile_frame_witness :
    (∃ d : StoredDoc,
      patchDocument (fun _ => none) (fun _ => none) (fun _ => none)
          c5IgnorePayload "u1" c5OldDoc = Except.ok d ∧
        d.sourceFileBucket = c5OldDoc.sourceFileBucket ∧
        d.sourceFilePath = c5OldDoc.sourceFilePath ∧
        d.sourceFileContentType = c5OldDoc.sourceFileContentType ∧
        d.sourceFileName = c5OldDoc.sourceFileName ∧
        d.sourceFileSize = c5OldDoc.sourceFileSize)
    ∧ (∃ d : StoredDoc,
      patchDocument (fun _ => none) (fun _ => none) (fun _ => none)
          c5ClearPayload "u1" c5OldDoc = Except.ok d ∧
        d.sourceFileBucket = none ∧
        d.sourceFilePath = none ∧
        d.sourceFileContentType = none ∧
        d.sourceFileName = none ∧
        d.sourceFileSize = none) :=
  ⟨patchDocument_sourceFile_frame.1 (fun _ => none) (fun _ => none) (fun _ => none)
      c5IgnorePayload "u1" c5OldDoc rfl rfl rfl rfl rfl (by decide),
    patchDocument_sourceFile_frame.2 (fun _ => none) (fun _ => none) (fun _ => none)
      c5ClearPayload "u1" c5OldDoc (Or.inr rfl) (Or.inr rfl) (by decide)⟩

/-! ## C7: overwrite semantics of the document update -/

/-- C7: on a successful document PATCH with every optional field omitted
(nonblank title, all other payload fields `undefined`), only the raw
extraction JSON and the five source-file columns keep the stored row's
values; every other mutable field is overwritten from the payload's
parse: dates and permit number become null, the status becomes ACTIVE,
the category becomes PERMIT, auto-renew becomes false, and both lookup
links are cleared. -/
theorem patchDocument_overwrites_omitted
    (dp : String → Option Int) (jr ar : String → Option Nat)
    (p : DocPayload) (uid : String) (old : StoredDoc)
    (htitle : jsStrTrimOr p.title ≠ "")
    (hpn : p.permitNumber = JsVal.undef)
    (hcat : p.documentCategory = JsVal.undef)
    (hst : p.status = JsVal.undef)
    (hsd : p.startDate = JsVal.undef)
    (hed : p.endDate = JsVal.undef)
    (har : p.autoRenew = JsVal.undef)
    (hraw : p.rawExtraction = JsVal.undef)
    (hjn : p.jurisdictionName = JsVal.undef)
    (han : p.issuingAuthorityName = JsVal.undef)
    (h1 : p.sourceFileBucket = JsVal.undef) (h2 : p.sourceFilePath = JsVal.undef)
    (h3 : p.sourceFileContentType = JsVal.undef) (h4 : p.sourceFileName = JsVal.undef)
    (h5 : p.sourceFileSize = JsVal.undef) :
    ∃ d : StoredDoc, patchDocument dp jr ar p uid old = Except.ok d ∧
      d.title = jsStrTrimOr p.title ∧
      d.permitNumber = none ∧
      d.documentCategory = DocumentCategory.PERMIT ∧
      d.status = DocumentStatus.ACTIVE ∧
      d.startDate = none ∧
      d.endDate = none ∧
      d.autoRenew = false ∧
      d.jurisdictionId = none ∧
      d.issuingAuthorityId = none ∧
      d.rawExtractionJson = old.rawExtractionJson ∧
      d.sourceFileBucket = old.sourceFileBucket ∧
      d.sourceFilePath = old.sourceFilePath ∧
      d.sourceFileContentType = old.sourceFileContentType ∧
      d.sourceFileName = old.sourceFileName ∧
      d.sourceFileSize = old.sourceFileSize := by
  have hdec : resolveSourceFileDecision p.sourceFields uid =
      Except.ok SourceFileDecision.ignore :=
    resolveSourceFileDecision_ignore _ _ h1 h2 h3 h4 h5
  simp only [patchDocument, if_neg htitle, hdec]
  refine ⟨_, rfl, rfl, ?_, ?_, ?_, ?_, ?_, ?_, ?_, ?_, ?_, rfl, rfl, rfl, rfl, rfl⟩
  · rw [hpn]
  · rw [hcat]; rfl
  · rw [hst]; rfl
  · rw [hsd]; rfl
  · rw [hed]; rfl
  · simp [har]
  · simp [hjn, jsStrTrimOr]
  · simp [han, jsStrTrimOr]
  · simp [hraw]

/-- Witness for C7: the all-omitted payload applied to the concrete
stored row. -/
theorem patchDocument_overwrites_omitted_witness :
    ∃ d : StoredDoc,
      patchDocument (fun _ => none) (fun _ => none) (fun _ => none)
          c5IgnorePayload "u1" c5OldDoc = Except.ok d ∧
        d.title = jsStrTrimOr c5IgnorePayload.title ∧
        d.permitNumber = none ∧
        d.documentCategory = DocumentCategory.PERMIT ∧
        d.status = DocumentStatus.ACTIVE ∧
        d.startDate = none ∧
        d.endDate = none ∧
        d.autoRenew = false ∧
        d.jurisdictionId = none ∧
        d.issuingAuthorityId = none ∧
        d.rawExtractionJson = c5OldDoc.rawExtractionJson ∧
        d.sourceFileBucket = c5OldDoc.sourceFileBucket ∧
        d.sourceFilePath = c5OldDoc.sourceFilePath ∧
        d.sourceFileContentType = c5OldDoc.sourceFileContentType ∧
        d.sourceFileName = c5OldDoc.sourceFileName ∧
        d.sourceFileSize = c5OldDoc.sourceFileSize :=
  patchDocument_overwrites_omitted (fun _ => none) (fun _ => none) (fun _ => none)
    c5IgnorePayload "u1" c5OldDoc (by decide)
    rfl rfl rfl rfl rfl rfl rfl rfl rfl rfl rfl rfl rfl rfl

/-! ## C8: company update link resolution -/

/-- The message and status of the company-name validation failure. -/
def CompanyPatchError.message : CompanyPatchError → String
  | .nameRequired => "Company name is required"

/-- The HTTP status of the company-name validation failure. -/
def CompanyPatchError.statusCode : CompanyPatchError → Nat
  | .nameRequired => 400

/-- C8: a company PATCH with a blank (or absent) name is rejected with
the 400 "Company name is required" error and produces no update; with a
nonblank name, a blank or absent `businessTypeName`/`jurisdictionName`
clears the corresponding stored link to null, while a nonblank label sets
or replaces the link with the id of the row resolved by find-or-create. -/
theorem patchBusiness_links (bt jr : String → Option Nat)
    (p : CompanyPayload) (existing : BusinessRow) :
    (jsStrTrimOr p.name = "" →
      patchBusiness bt jr p existing = Except.error CompanyPatchError.nameRequired
      ∧ CompanyPatchError.message CompanyPatchError.nameRequired =
          "Company name is required"
      ∧ CompanyPatchError.statusCode CompanyPatchError.nameRequired = 400)
    ∧ (jsStrTrimOr p.name ≠ "" →
      ∃ u : BusinessRow, patchBusiness bt jr p existing = Except.ok u ∧
        u.name = jsStrTrimOr p.name ∧
        (jsStrTrimOr p.businessTypeName = "" → u.businessTypeId = none) ∧
        (∀ i : Nat, jsStrTrimOr p.businessTypeName ≠ "" →
          bt (jsStrTrimOr p.businessTypeName) = some i → u.businessTypeId = some i) ∧
        (jsStrTrimOr p.jurisdictionName = "" → u.jurisdictionId = none) ∧
        (∀ i : Nat, jsStrTrimOr p.jurisdictionName ≠ "" →
          jr (jsStrTrimOr p.jurisdictionName) = some i → u.jurisdictionId = some i)) := by
  constructor
  · intro hname
    refine ⟨?_, rfl, rfl⟩
    rw [patchBusiness, if_pos hname]
  · intro hname
    simp only [patchBusiness, if_neg hname]
    refine ⟨_, rfl, rfl, ?_, ?_, ?_, ?_⟩
    · intro hbt
      simp [hbt]
    · intro i hbt hres
      rw [if_pos hbt, hres]
    · intro hjr
      simp [hjr]
    · intro i hjr hres
      rw [if_pos hjr, hres]

/-- A concrete company payload: nonblank name, nonblank business type,
blank jurisdiction label. -/
def c8Payload : CompanyPayload :=
  { name := .str " Acme Foods "
    phone := .undef
    notes := .undef
    businessTypeName := .str "Restaurant"
    jurisdictionName := .str "  " }

/-- Witness for C8: with the concrete payload, the business-type link is
set to the resolved id 42 and the jurisdiction link is cleared; the blank
name case is exercised on the all-blank payload. -/
theorem patchBusiness_links_witness :
    (jsStrTrimOr (JsVal.str " ") = "" →
      patchBusiness (fun _ => some 42) (fun _ => some 7)
          { name := .str " ", phone := .undef, notes := .undef,
            businessTypeName := .undef, jurisdictionName := .undef }
          { name := "Old", phone := none, notes := none,
            businessTypeId := some 1, jurisdictionId := some 2 } =
        Except.error CompanyPatchError.nameRequired
      ∧ CompanyPatchError.message CompanyPatchError.nameRequired =
          "Company name is required"
      ∧ CompanyPatchError.statusCode CompanyPatchError.nameRequired = 400)
    ∧ (jsStrTrimOr c8Payload.name ≠ "" →
      ∃ u : BusinessRow,
        patchBusiness (fun _ => some 42) (fun _ => some 7) c8Payload
            { name := "Old", phone := none, notes := none,
              businessTypeId := some 1, jurisdictionId := some 2 } =
          Except.ok u ∧
        u.name = jsStrTrimOr c8Payload.name ∧
        (jsStrTrimOr c8Payload.businessTypeName = "" → u.businessTypeId = none) ∧
        (∀ i : Nat, jsStrTrimOr c8Payload.businessTypeName ≠ "" →
          (fun _ => some 42) (jsStrTrimOr c8Payload.businessTypeName) = some i →
          u.businessTypeId = some i) ∧
        (jsStrTrimOr c8Payload.jurisdictionName = "" → u.jurisdictionId = none) ∧
        (∀ i : Nat, jsStrTrimOr c8Payload.jurisdictionName ≠ "" →
          (fun _ => some 7) (jsStrTrimOr c8Payload.jurisdictionName) = some i →
          u.jurisdictionId = some i)) :=
  ⟨(patchBusiness_links (fun _ => some 42) (fun _ => some 7)
      { name := .str " ", phone := .undef, notes := .undef,
        businessTypeName := .undef, jurisdictionName := .undef }
      { name := "Old", phone := none, notes := none,
        businessTypeId := some 1, jurisdictionId := some 2 }).1,
   (patchBusiness_links (fun _ => some 42) (fun _ => some 7) c8Payload
      { name := "Old", phone := none, notes := none,
        businessTypeId := some 1, jurisdictionId := some 2 }).2⟩

/-! ## C6: date parsing is total and null on failure -/

/-- C6: for any behaviour `dp` of the external `new Date(...)` parser,
`parseDate` yields null on a non-string, on a blank string, and on a
string the parser cannot parse, and yields exactly the parsed date on a
nonblank parseable string; the extraction normalizer `normalizeDate`
behaves the same way with the empty string as its absent marker, and
renders successes as the first ten characters of the ISO string. -/
theorem parseDate_null_on_failure :
    (∀ (dp : String → Option Int) (v : JsVal),
      (∀ s : String, v ≠ JsVal.str s) → parseDate dp v = none)
    ∧ (∀ (dp : String → Option Int) (s : String),
      jsTrim s = "" → parseDate dp (JsVal.str s) = none)
    ∧ (∀ (dp : String → Option Int) (s : String),
      dp (jsTrim s) = none → parseDate dp (JsVal.str s) = none)
    ∧ (∀ (dp : String → Option Int) (s : String) (t : Int),
      jsTrim s ≠ "" → dp (jsTrim s) = some t →
      parseDate dp (JsVal.str s) = some t)
    ∧ (∀ (dp : String → Option Int) (iso : Int → String) (v : JsVal),
      (∀ s : String, v ≠ JsVal.str s) → normalizeDate dp iso v = "")
    ∧ (∀ (dp : String → Option Int) (iso : Int → String) (s : String),
      jsTrim s = "" → normalizeDate dp iso (JsVal.str s) = "")
    ∧ (∀ (dp : String → Option Int) (iso : Int → String) (s : String),
      dp (jsTrim s) = none → normalizeDate dp iso (JsVal.str s) = "")
    ∧ (∀ (dp : String → Option Int) (iso : Int → String) (s : String) (t : Int),
      jsTrim s ≠ "" → dp (jsTrim s) = some t →
      normalizeDate dp iso (JsVal.str s) = String.mk ((iso t).toList.take 10)) := by
  refine ⟨?_, ?_, ?_, ?_, ?_, ?_, ?_, ?_⟩
  · intro dp v hv
    cases v with
    | str s => exact absurd rfl (hv s)
    | undef => rfl
    | nullv => rfl
    | num n => rfl
    | boolv b => rfl
    | objv => rfl
  · intro dp s hs
    simp [parseDate, hs]
  · intro dp s hs
    by_cases hb : jsTrim s = ""
    · simp [parseDate, hb]
    · simp [parseDate, hb, hs]
  · intro dp s t hb hs
    simp [parseDate, hb, hs]
  · intro dp iso v hv
    cases v with
    | str s => exact absurd rfl (hv s)
    | undef => rfl
    | nullv => rfl
    | num n => rfl
    | boolv b => rfl
    | objv => rfl
  · intro dp iso s hs
    simp [normalizeDate, hs]
  · intro dp iso s hs
    by_cases hb : jsTrim s = ""
    · simp [normalizeDate, hb]
    · simp [normalizeDate, hb, hs]
  · intro dp iso s t hb hs
    simp [normalizeDate, hb, hs]

/-- A concrete external date parser that parses exactly "2025-01-01". -/
def c6Parser (s : String) : Option Int :=
  if s = "2025-01-01" then some 1735689600000 else none

/-- Witness for C6 at concrete inputs: a non-string, a blank string, an
unparseable string and a parseable string, under `c6Parser`. -/
theorem parseDate_null_on_failure_witness :
    ((∀ s : String, JsVal.nullv ≠ JsVal.str s) →
      parseDate c6Parser JsVal.nullv = none)
    ∧ (jsTrim "   " = "" → parseDate c6Parser (JsVal.str "   ") = none)
    ∧ (c6Parser (jsTrim "not a date") = none →
      parseDate c6Parser (JsVal.str "not a date") = none)
    ∧ (jsTrim " 2025-01-01 " ≠ "" →
      c6Parser (jsTrim " 2025-01-01 ") = some 1735689600000 →
      parseDate c6Parser (JsVal.str " 2025-01-01 ") = some 1735689600000) :=
  ⟨fun h => parseDate_null_on_failure.1 c6Parser JsVal.nullv h,
   fun h => parseDate_null_on_failure.2.1 c6Parser "   " h,
   fun h => parseDate_null_on_failure.2.2.1 c6Parser "not a date" h,
   fun h1 h2 =>
     parseDate_null_on_failure.2.2.2.1 c6Parser " 2025-01-01 " 1735689600000 h1 h2⟩

/-! ## C9: file relay checks -/

/-- Reduction of the file-relay GET once an owned document with a
present bucket and path has been found. -/
theorem fileRelayGET_found (db : List DocFileRow) (businessId documentId : Nat)
    (userId : String) (dl : String → String → Except String Unit)
    (doc : DocFileRow) (b pa : String)
    (hfind : findDocForUser db documentId businessId userId = some doc)
    (hb : doc.sourceFileBucket = some b) (hpa : doc.sourceFilePath = some pa)
    (hbne : b ≠ "") (hpane : pa ≠ "") :
    fileRelayGET db businessId documentId userId dl =
      if b ≠ PERMIT_FILES_BUCKET then RelayResponse.badRequest "Invalid file reference"
      else
        match dl b pa with
        | .error _ => RelayResponse.badGateway "Unable to load file"
        | .ok _ =>
          RelayResponse.file
            (doc.sourceFileContentType.getD "application/octet-stream")
            (doc.sourceFileName.getD "permit-file") := by
  simp only [fileRelayGET, hfind]
  rw [if_neg (by simp [jsFalsyOptStr, hb, hpa, hbne, hpane])]
  simp only [hb, hpa, Option.getD_some]

/-- C9: the file-relay GET answers not-found when no row matches the
document id, company id and requesting owner (in particular whenever
every matching row belongs to another user); answers not-found when the
matched document stores no bucket or path; rejects with 400 when the
stored bucket differs from the designated bucket; and only when all
checks pass and the download succeeds does it stream the file, with
content type and filename taken from the stored metadata (with their
defaults). -/
theorem fileRelay_checks (db : List DocFileRow) (businessId documentId : Nat)
    (userId : String) (dl : String → String → Except String Unit) :
    ((∀ r ∈ db, ¬ (r.id = documentId ∧ r.businessId = businessId ∧
        r.ownerId = userId)) →
      fileRelayGET db businessId documentId userId dl =
        RelayResponse.notFound "Permit not found")
    ∧ (∀ doc : DocFileRow,
      findDocForUser db documentId businessId userId = some doc →
      (jsFalsyOptStr doc.sourceFileBucket || jsFalsyOptStr doc.sourceFilePath) = true →
      fileRelayGET db businessId documentId userId dl =
        RelayResponse.notFound "No stored file for this permit")
    ∧ (∀ (doc : DocFileRow) (b pa : String),
      findDocForUser db documentId businessId userId = some doc →
      doc.sourceFileBucket = some b → doc.sourceFilePath = some pa →
      b ≠ "" → pa ≠ "" → b ≠ PERMIT_FILES_BUCKET →
      fileRelayGET db businessId documentId userId dl =
        RelayResponse.badRequest "Invalid file reference")
    ∧ (∀ (doc : DocFileRow) (pa : String),
      findDocForUser db documentId businessId userId = some doc →
      doc.sourceFileBucket = some PERMIT_FILES_BUCKET →
      doc.sourceFilePath = some pa → pa ≠ "" →
      ((∀ e : String, dl PERMIT_FILES_BUCKET pa = Except.error e →
        fileRelayGET db businessId documentId userId dl =
          RelayResponse.badGateway "Unable to load file")
      ∧ (dl PERMIT_FILES_BUCKET pa = Except.ok () →
        fileRelayGET db businessId documentId userId dl =
          RelayResponse.file
            (doc.sourceFileContentType.getD "application/octet-stream")
            (doc.sourceFileName.getD "permit-file")))) := by
  refine ⟨?_, ?_, ?_, ?_⟩
  · intro hnone
    have hfind : findDocForUser db documentId businessId userId = none := by
      rw [findDocForUser, List.find?_eq_none]
      intro r hr
      simpa using hnone r hr
    rw [fileRelayGET, hfind]
  · intro doc hfind hfalsy
    simp only [fileRelayGET, hfind]
    simp only [hfalsy, if_true]
  · intro doc b pa hfind hb hpa hbne hpane hbad
    rw [fileRelayGET_found db businessId documentId userId dl doc b pa
      hfind hb hpa hbne hpane]
    rw [if_pos hbad]
  · intro doc pa hfind hb hpa hpane
    have hred := fileRelayGET_found db businessId documentId userId dl doc
      PERMIT_FILES_BUCKET pa hfind hb hpa (by decide) hpane
    rw [if_neg (by simp)] at hred
    constructor
    · intro e he
      rw [hred, he]
    · intro hok
      rw [hred, hok]

/-- A one-row database for the witness: document 2 of company 1, owned by
user "u2", with a stored file in the designated bucket. -/
def c9Db : List DocFileRow :=
  [{ id := 2
     businessId := 1
     ownerId := "u2"
     sourceFileBucket := some "permit-files"
     sourceFilePath := some "u2/scan.pdf"
     sourceFileContentType := some "application/pdf"
     sourceFileName := some "scan.pdf" }]

/-- A storage download that always succeeds. -/
def c9Download (_bucket _path : String) : Except String Unit := Except.ok ()

/-- Witness for C9 at concrete inputs: user "u1" gets not-found on the
row owned by "u2", and the owner "u2" gets the streamed file with the
stored content type and name. -/
theorem fileRelay_checks_witness :
    ((∀ r ∈ c9Db, ¬ (r.id = 2 ∧ r.businessId = 1 ∧ r.ownerId = "u1")) →
      fileRelayGET c9Db 1 2 "u1" c9Download =
        RelayResponse.notFound "Permit not found")
    ∧ (∀ doc : DocFileRow,
      findDocForUser c9Db 2 1 "u2" = some doc →
      doc.sourceFileBucket = some PERMIT_FILES_BUCKET →
      doc.sourceFilePath = some "u2/scan.pdf" → "u2/scan.pdf" ≠ "" →
      ((∀ e : String, c9Download PERMIT_FILES_BUCKET "u2/scan.pdf" = Except.error e →
        fileRelayGET c9Db 1 2 "u2" c9Download =
          RelayResponse.badGateway "Unable to load file")
      ∧ (c9Download PERMIT_FILES_BUCKET "u2/scan.pdf" = Except.ok () →
        fileRelayGET c9Db 1 2 "u2" c9Download =
          RelayResponse.file
            (doc.sourceFileContentType.getD "application/octet-stream")
            (doc.sourceFileName.getD "permit-file")))) :=
  ⟨(fileRelay_checks c9Db 1 2 "u1" c9Download).1,
   fun doc => (fileRelay_checks c9Db 1 2 "u2" c9Download).2.2.2 doc "u2/scan.pdf"⟩

/-! ## C2: authentication gating -/

/-- C2 counterexample: the claim that every API operation rejects
absent/invalid sessions with 401 fails twice on the code.  The
extraction-save POST, given no session but a `userEmail` in the payload,
proceeds to find-or-create that user and save records (no 401); and a
session whose validation surfaces a provider error is answered with 500,
not 401, by the document routes and the file relay. -/
theorem authGate_counterexample :
    resolveSubmitUser Auth.noUser (JsVal.str "Someone@Example.com") =
      SubmitUserResolution.emailFallback "someone@example.com"
    ∧ docRouteAuthStatus (Auth.authError "invalid JWT") = some 500
    ∧ fileRouteAuthStatus (Auth.authError "invalid JWT") = some 500 := by
  refine ⟨?_, rfl, rfl⟩
  rfl

/-- C2 amended: the company, document and file-relay routes answer an
absent session with 401 before touching any record, and map a
provider-error session to 500; the extraction-save POST answers 401 only
when both the session and the payload `userEmail` are absent/blank, and
otherwise proceeds as the session user or as the user found-or-created
from the supplied email. -/
theorem authGate_amended :
    docRouteAuthStatus Auth.noUser = some 401
    ∧ fileRouteAuthStatus Auth.noUser = some 401
    ∧ (∀ m : String, docRouteAuthStatus (Auth.authError m) = some 500)
    ∧ (∀ m : String, fileRouteAuthStatus (Auth.authError m) = some 500)
    ∧ (∀ u : String, docRouteAuthStatus (Auth.authed u) = none)
    ∧ (∀ u : String, fileRouteAuthStatus (Auth.authed u) = none)
    ∧ resolveSubmitUser Auth.noUser JsVal.undef = SubmitUserResolution.err 401
    ∧ (∀ s : String, jsToLower (jsTrim s) = "" →
        resolveSubmitUser Auth.noUser (JsVal.str s) = SubmitUserResolution.err 401)
    ∧ (∀ s : String, jsToLower (jsTrim s) ≠ "" →
        resolveSubmitUser Auth.noUser (JsVal.str s) =
          SubmitUserResolution.emailFallback (jsToLower (jsTrim s)))
    ∧ (∀ (u : String) (e : JsVal),
        resolveSubmitUser (Auth.authed u) e = SubmitUserResolution.session u)
    ∧ (∀ (m : String) (e : JsVal),
        resolveSubmitUser (Auth.authError m) e = SubmitUserResolution.err 500) := by
  refine ⟨rfl, rfl, fun _ => rfl, fun _ => rfl, fun _ => rfl, fun _ => rfl, rfl,
    ?_, ?_, fun _ _ => rfl, fun _ _ => rfl⟩
  · intro s hs
    simp only [resolveSubmitUser, if_pos hs]
  · intro s hs
    simp only [resolveSubmitUser, if_neg hs]

/-- Witness for the amended C2 at concrete inputs. -/
theorem authGate_amended_witness :
    docRouteAuthStatus (Auth.authError "bad token") = some 500
    ∧ (jsToLower (jsTrim "  ") = "" →
        resolveSubmitUser Auth.noUser (JsVal.str "  ") = SubmitUserResolution.err 401)
    ∧ (jsToLower (jsTrim " A@b.c ") ≠ "" →
        resolveSubmitUser Auth.noUser (JsVal.str " A@b.c ") =
          SubmitUserResolution.emailFallback (jsToLower (jsTrim " A@b.c ")))
    ∧ resolveSubmitUser (Auth.authed "u1") (JsVal.str "other@x.y") =
        SubmitUserResolution.session "u1" :=
  ⟨authGate_amended.2.2.1 "bad token",
   fun h => authGate_amended.2.2.2.2.2.2.2.1 "  " h,
   fun h => authGate_amended.2.2.2.2.2.2.2.2.1 " A@b.c " h,
   authGate_amended.2.2.2.2.2.2.2.2.2.1 "u1" (JsVal.str "other@x.y")⟩

/-! ## C3: enum normalization -/

/-- `Char.ofNat` at a valid code point reads back as that code point. -/
theorem charToNat_ofNat (n : Nat) (h : n.isValidChar) :
    (Char.ofNat n).toNat = n := by
  rw [Char.ofNat, dif_pos h, Char.ofNatAux, Char.toNat]
  simp [UInt32.toNat]

/-- On a lower-case ASCII letter, `asciiUpper` subtracts 32. -/
theorem asciiUpper_toNat_lower (c : Char) (h1 : 97 ≤ c.toNat) (h2 : c.toNat ≤ 122) :
    (asciiUpper c).toNat = c.toNat - 32 := by
  rw [asciiUpper, if_pos ⟨h1, h2⟩]
  exact charToNat_ofNat _ (Or.inl (by omega))

/-- Outside the lower-case ASCII range, `asciiUpper` is the identity. -/
theorem asciiUpper_eq_self (c : Char) (h : ¬ (97 ≤ c.toNat ∧ c.toNat ≤ 122)) :
    asciiUpper c = c := by
  rw [asciiUpper, if_neg h]

/-- Upper-casing does not change whether a character is whitespace. -/
theorem isJsSpace_asciiUpper (c : Char) :
    isJsSpace (asciiUpper c) = isJsSpace c := by
  by_cases h : 97 ≤ c.toNat ∧ c.toNat ≤ 122
  · have ht := asciiUpper_toNat_lower c h.1 h.2
    rw [isJsSpace, isJsSpace, ht]
    refine Eq.trans (b := false) ?_ ?_
    · simp only [Bool.or_eq_false_iff, decide_eq_false_iff_not]
      omega
    · symm
      simp only [Bool.or_eq_false_iff, decide_eq_false_iff_not]
      omega
  · rw [asciiUpper_eq_self c h]

/-- Upper-casing does not change whether a character is a separator. -/
theorem isSepChar_asciiUpper (c : Char) :
    isSepChar (asciiUpper c) = isSepChar c := by
  by_cases h : 97 ≤ c.toNat ∧ c.toNat ≤ 122
  · have ht := asciiUpper_toNat_lower c h.1 h.2
    rw [isSepChar, isSepChar, isJsSpace_asciiUpper, ht]
    congr 1
    refine Eq.trans (b := false) ?_ ?_
    · simp only [decide_eq_false_iff_not]
      omega
    · symm
      simp only [decide_eq_false_iff_not]
      omega
  · rw [asciiUpper_eq_self c h]

/-- Dropping whitespace commutes with upper-casing. -/
theorem dropWhile_isJsSpace_map_asciiUpper (l : List Char) :
    (l.map asciiUpper).dropWhile isJsSpace = (l.dropWhile isJsSpace).map asciiUpper := by
  rw [List.dropWhile_map]
  have h : isJsSpace ∘ asciiUpper = isJsSpace :=
    funext fun c => isJsSpace_asciiUpper c
  rw [h]

/-- Trimming commutes with upper-casing. -/
theorem trimList_map_asciiUpper (l : List Char) :
    trimList (l.map asciiUpper) = (trimList l).map asciiUpper := by
  rw [trimList, trimList, dropWhile_isJsSpace_map_asciiUpper, ← List.map_reverse,
    dropWhile_isJsSpace_map_asciiUpper, ← List.map_reverse]

/-- `jsTrim` commutes with `jsToUpper`. -/
theorem jsTrim_jsToUpper (s : String) :
    jsTrim (jsToUpper s) = jsToUpper (jsTrim s) := by
  rw [jsTrim, jsToUpper, jsTrim, jsToUpper]
  exact congrArg String.mk (trimList_map_asciiUpper s.toList)

/-- The separator-collapsing fold commutes with upper-casing. -/
theorem collapseFold_map_asciiUpper (l : List Char) (acc : List Char) (b : Bool) :
    (l.map asciiUpper).foldl collapseStep (acc.map asciiUpper, b) =
      ((l.foldl collapseStep (acc, b)).1.map asciiUpper,
        (l.foldl collapseStep (acc, b)).2) := by
  induction l generalizing acc b with
  | nil => simp
  | cons c rest ih =>
    simp only [List.map_cons, List.foldl_cons, collapseStep, isSepChar_asciiUpper]
    by_cases hsep : isSepChar c = true
    · rw [if_pos hsep, if_pos hsep]
      cases b with
      | true => simpa using ih acc true
      | false =>
        have hu : List.map asciiUpper acc ++ ['_'] =
            List.map asciiUpper (acc ++ ['_']) := by
          simp [asciiUpper_eq_self '_' (by decide)]
        simp only [hu]
        simpa using ih (acc ++ ['_']) true
    · rw [if_neg hsep, if_neg hsep]
      have hu : List.map asciiUpper acc ++ [asciiUpper c] =
          List.map asciiUpper (acc ++ [c]) := by
        simp
      simp only [hu]
      exact ih (acc ++ [c]) false

/-- `collapseSeps` commutes with `jsToUpper`. -/
theorem collapseSeps_jsToUpper (s : String) :
    collapseSeps (jsToUpper s) = jsToUpper (collapseSeps s) := by
  rw [collapseSeps, collapseSeps, jsToUpper, jsToUpper]
  apply congrArg String.mk
  have h := collapseFold_map_asciiUpper s.toList [] false
  simpa using congrArg Prod.fst h

/-- The category lookup string is determined by the upper-cased input. -/
theorem canonCat_of_upper_eq {s t : String} (h : jsToUpper s = jsToUpper t) :
    canonCat s = canonCat t := by
  rw [canonCat, canonCat, ← jsTrim_jsToUpper, ← jsTrim_jsToUpper, h]

/-- The status lookup string is determined by the upper-cased input. -/
theorem canonStat_of_upper_eq {s t : String} (h : jsToUpper s = jsToUpper t) :
    canonStat s = canonStat t := by
  rw [canonStat, canonStat, ← jsTrim_jsToUpper, ← jsTrim_jsToUpper, h]

/-- The canonical form of the spec's loose equivalence on enum strings:
upper-case and delete every whitespace, hyphen and underscore character.
Two strings "differing only by letter case, surrounding or internal
spacing, or hyphens versus underscores" have the same canonical form. -/
def stripSepCase (s : String) : String :=
  String.mk ((s.toList.filter (fun c => !(isSepChar c || c.toNat = 95))).map asciiUpper)

/-- The spec's loose equivalence on category/status strings. -/
def specLooseEquiv (s t : String) : Prop := stripSepCase s = stripSepCase t

/-- C3 counterexample: `"OTHER"` and `"OT HER"` differ only by internal
spacing, yet normalize to different categories (OTHER vs the PERMIT
fallback); `"EXPIRED"` and `"EX PIRED"` differ only by internal spacing,
yet normalize to different statuses (EXPIRED vs the ACTIVE fallback). -/
theorem normalize_spacing_counterexample :
    specLooseEquiv "OTHER" "OT HER"
    ∧ normalizeCategory (JsVal.str "OTHER") = DocumentCategory.OTHER
    ∧ normalizeCategory (JsVal.str "OT HER") = DocumentCategory.PERMIT
    ∧ DocumentCategory.OTHER ≠ DocumentCategory.PERMIT
    ∧ specLooseEquiv "EXPIRED" "EX PIRED"
    ∧ normalizeStatus (JsVal.str "EXPIRED") = DocumentStatus.EXPIRED
    ∧ normalizeStatus (JsVal.str "EX PIRED") = DocumentStatus.ACTIVE
    ∧ DocumentStatus.EXPIRED ≠ DocumentStatus.ACTIVE := by
  refine ⟨?_, rfl, rfl, by decide, ?_, rfl, rfl, by decide⟩
  · rfl
  · rfl

/-- C3 amended: normalization of both enums is insensitive to letter
case and surrounding whitespace (two strings with equal upper-casings
normalize alike); status normalization additionally identifies strings
with equal collapsed lookup forms, so runs of spaces or hyphens standing
where an enum value has an underscore are accepted; spacing inserted
inside a word is not ignored; enum codes normalize to themselves; any
string whose lookup form is unrecognized falls back to PERMIT / ACTIVE,
as does any non-string. -/
theorem normalize_enum_amended :
    (∀ s t : String, jsToUpper s = jsToUpper t →
      normalizeCategory (JsVal.str s) = normalizeCategory (JsVal.str t)
      ∧ normalizeStatus (JsVal.str s) = normalizeStatus (JsVal.str t))
    ∧ (∀ s t : String, canonCat s = canonCat t →
      normalizeCategory (JsVal.str s) = normalizeCategory (JsVal.str t))
    ∧ (∀ s t : String, canonStat s = canonStat t →
      normalizeStatus (JsVal.str s) = normalizeStatus (JsVal.str t))
    ∧ (∀ c : DocumentCategory, normalizeCategory (JsVal.str c.code) = c)
    ∧ (∀ st : DocumentStatus, normalizeStatus (JsVal.str st.code) = st)
    ∧ (∀ s : String, DocumentCategory.ofCode? (canonCat s) = none →
      normalizeCategory (JsVal.str s) = DocumentCategory.PERMIT)
    ∧ (∀ s : String, DocumentStatus.ofCode? (canonStat s) = none →
      normalizeStatus (JsVal.str s) = DocumentStatus.ACTIVE)
    ∧ (∀ v : JsVal, (∀ s : String, v ≠ JsVal.str s) →
      normalizeCategory v = DocumentCategory.PERMIT
      ∧ normalizeStatus v = DocumentStatus.ACTIVE)
    ∧ normalizeStatus (JsVal.str " pending-renewal ") = DocumentStatus.PENDING_RENEWAL
    ∧ normalizeStatus (JsVal.str "Pending Renewal") = DocumentStatus.PENDING_RENEWAL
    ∧ normalizeStatus (JsVal.str "pending_renewal") = DocumentStatus.PENDING_RENEWAL
    ∧ normalizeCategory (JsVal.str " license ") = DocumentCategory.LICENSE := by
  refine ⟨?_, ?_, ?_, ?_, ?_, ?_, ?_, ?_, rfl, rfl, rfl, rfl⟩
  · intro s t h
    constructor
    · simp only [normalizeCategory, canonCat_of_upper_eq h]
    · simp only [normalizeStatus, canonStat_of_upper_eq h]
  · intro s t h
    simp only [normalizeCategory, h]
  · intro s t h
    simp only [normalizeStatus, h]
  · intro c
    cases c <;> rfl
  · intro st
    cases st <;> rfl
  · intro s h
    simp only [normalizeCategory, h, Option.getD_none]
  · intro s h
    simp only [normalizeStatus, h, Option.getD_none]
  · intro v hv
    cases v with
    | str s => exact absurd rfl (hv s)
    | undef => exact ⟨rfl, rfl⟩
    | nullv => exact ⟨rfl, rfl⟩
    | num n => exact ⟨rfl, rfl⟩
    | boolv b => exact ⟨rfl, rfl⟩
    | objv => exact ⟨rfl, rfl⟩

/-- Witness for the amended C3 at concrete inputs: a case variant, a
hyphen/underscore variant, an unrecognized string and a non-string. -/
theorem normalize_enum_amended_witness :
    (jsToUpper "lIcEnSe" = jsToUpper "LICENSE" →
      normalizeCategory (JsVal.str "lIcEnSe") = normalizeCategory (JsVal.str "LICENSE")
      ∧ normalizeStatus (JsVal.str "lIcEnSe") = normalizeStatus (JsVal.str "LICENSE"))
    ∧ (canonStat "pending-renewal" = canonStat "PENDING_RENEWAL" →
      normalizeStatus (JsVal.str "pending-renewal") =
        normalizeStatus (JsVal.str "PENDING_RENEWAL"))
    ∧ (DocumentCategory.ofCode? (canonCat "mystery") = none →
      normalizeCategory (JsVal.str "mystery") = DocumentCategory.PERMIT)
    ∧ ((∀ s : String, JsVal.nullv ≠ JsVal.str s) →
      normalizeCategory JsVal.nullv = DocumentCategory.PERMIT
      ∧ normalizeStatus JsVal.nullv = DocumentStatus.ACTIVE) :=
  ⟨fun h => normalize_enum_amended.1 "lIcEnSe" "LICENSE" h,
   fun h => normalize_enum_amended.2.2.1 "pending-renewal" "PENDING_RENEWAL" h,
   fun h => normalize_enum_amended.2.2.2.2.2.1 "mystery" h,
   fun h => normalize_enum_amended.2.2.2.2.2.2.2.1 JsVal.nullv h⟩
